import Mathlib

/-
  Verification of the KeyShield Vault API-key lifecycle subsystem.

  Shallow embedding of the Express/better-sqlite3 service:
    - src/api/db.js                  : the api_keys and audit_logs tables
    - src/api/routes/admin.js        : createKey, listKeys, revokeKey, audit
    - the client access route        : accessAndRotate (rotate-on-use)

  The store is a list of rows with AUTOINCREMENT counters; each SQL statement
  of the source becomes one state transformation.  Node's crypto primitives
  (sha256, bcryptjs) are external libraries and are modelled idealized:
  sha256 as a collision-free digest, bcrypt as a salted hash whose
  verification succeeds exactly for the hashed input.  All handlers in the
  source are fully synchronous (better-sqlite3 and bcryptjs sync calls, no
  await), so requests execute serially, one at a time.
-/

namespace KeyShield

/-- Model of bcryptjs: `hashSync(raw, cost)` embeds a random salt in the
    encoded hash; verification succeeds exactly for the original input.
    The structure records the nondeterministic salt and the hashed input;
    `bcryptCompareSync` checks the defining property of bcrypt verification. -/
structure BcryptHash where
  salt : Nat
  input : String
deriving Repr, DecidableEq

def bcryptHashSync (raw : String) (salt : Nat) : BcryptHash :=
  ⟨salt, raw⟩

def bcryptCompareSync (raw : String) (h : BcryptHash) : Bool :=
  h.input == raw

/-- Model of Node `crypto.createHash("sha256").update(s).digest("hex")` as an
    idealized collision-free digest; the unique-fingerprint lookup of the
    source relies on collision resistance of sha256. -/
def sha256hex (s : String) : String :=
  "sha256:" ++ s

/-- Line 10 of admin.js (and likewise the client route):
    `const PEPPER = process.env.KEY_PEPPER || "pepper-change-me"`.
    JS `||` yields the default when the variable is absent or empty. -/
def resolvePepper (envKeyPepper : Option String) : String :=
  match envKeyPepper with
  | none => "pepper-change-me"
  | some s => if s = "" then "pepper-change-me" else s

/-- Modelled from the spec: the demanded startup behavior for the pepper
    configuration — "a missing pepper configuration must fail loudly at
    startup, not silently degrade security".  Resolution yields no pepper
    (startup failure) when KEY_PEPPER is absent, and never substitutes a
    default value. -/
def resolvePepperSpec (envKeyPepper : Option String) : Option String :=
  envKeyPepper

/-- `fingerprintKey(rawKey)`: sha256 hex digest of `rawKey + PEPPER`. -/
def fingerprintKey (pepper rawKey : String) : String :=
  sha256hex (rawKey ++ pepper)

/-- JS `rawKey.slice(-4)`: the last four characters (the whole string when it
    is shorter than four characters). -/
def sliceLast4 (s : String) : String :=
  String.mk (s.data.drop (s.data.length - 4))

/-- One row of the `api_keys` table (db.js). `status` is the TEXT column
    holding "ACTIVE" or "REVOKED". -/
structure ApiKey where
  id : Nat
  label : String
  status : String
  key_hash : BcryptHash
  key_fingerprint : String
  key_last4 : String
  rotation_count : Nat
  created_at : String
  last_used_at : Option String
  last_rotated_at : Option String
  revoked_at : Option String
  revocation_reason : Option String
deriving Repr, DecidableEq

/-- One row of the append-only `audit_logs` table (db.js).  The source stores
    `meta` as a JSON string via JSON.stringify; the model keeps the structured
    key/value pairs that are serialized. -/
structure AuditLogEntry where
  id : Nat
  actor : String
  action : String
  target_type : Option String
  target_id : Option Nat
  ip : String
  meta : List (String × String)
  created_at : String
deriving Repr, DecidableEq

/-- The persistent better-sqlite3 store, with the AUTOINCREMENT id sources
    made explicit as counters. -/
structure Store where
  api_keys : List ApiKey
  audit_logs : List AuditLogEntry
  nextKeyId : Nat
  nextAuditId : Nat
deriving Repr, DecidableEq

/-- `UPDATE api_keys SET ... WHERE id = ?`: applies `f` to every row whose id
    matches (in practice ids are unique, so to at most one row). -/
def updateRow (st : Store) (id : Nat) (f : ApiKey → ApiKey) : Store :=
  { st with api_keys := st.api_keys.map (fun r => if r.id = id then f r else r) }

/-- `INSERT INTO audit_logs (actor, action, target_type, target_id, ip, meta,
    created_at) VALUES (...)` — the body of the `audit` helper of admin.js
    and of the client route. -/
def insertAudit (st : Store) (actor action : String) (targetType : Option String)
    (targetId : Option Nat) (ip : String) (meta : List (String × String))
    (now : String) : Store :=
  { st with
    audit_logs := st.audit_logs ++
      [⟨st.nextAuditId, actor, action, targetType, targetId, ip, meta, now⟩],
    nextAuditId := st.nextAuditId + 1 }

/-- Client-route `audit(action, req, keyId, meta)`: actor "client", target
    type "api_key". -/
def auditClient (st : Store) (action : String) (keyId : Nat) (ip now : String) :
    Store :=
  insertAudit st "client" action (some "api_key") (some keyId) ip [] now

/-- Response of POST /access.  `missingKey` is the 400, `invalidKey` the 401,
    `keyNotActive` the 403 (carrying the interpolated row status), `granted`
    the 200 payload with `rotated_key_once`. -/
inductive AccessResp where
  | missingKey
  | invalidKey
  | keyNotActive (status : String)
  | granted (rotated_key_once : String)
deriving Repr, DecidableEq

def AccessResp.httpStatus : AccessResp → Nat
  | .missingKey => 400
  | .invalidKey => 401
  | .keyNotActive _ => 403
  | .granted _ => 200

/-- `router.post("/access")` of the client route, translated statement by
    statement.  `headerKey` is `req.headers["x-api-key"]` (JS `!rawKey` is
    true for an absent header and for the empty string).  `newKey` and
    `newSalt` stand for the entropy drawn inside the handler by
    `generateRawKey()` and `bcrypt.hashSync`; `now` is the request clock. -/
def accessAndRotate (pepper : String) (st : Store) (headerKey : Option String)
    (newKey : String) (newSalt : Nat) (now ip : String) : Store × AccessResp :=
  match headerKey with
  | none => (st, .missingKey)
  | some rawKey =>
    if rawKey = "" then (st, .missingKey)
    else
      match st.api_keys.find? (fun r => r.key_fingerprint == fingerprintKey pepper rawKey) with
      | none => (st, .invalidKey)
      | some row =>
        if row.status ≠ "ACTIVE" then (st, .keyNotActive row.status)
        else if bcryptCompareSync rawKey row.key_hash = false then (st, .invalidKey)
        else
          let st1 := updateRow st row.id (fun r => { r with last_used_at := some now })
          let st2 := auditClient st1 "KEY_USED" row.id ip now
          let st3 := updateRow st2 row.id (fun r =>
            { r with
              key_hash := bcryptHashSync newKey newSalt,
              key_fingerprint := fingerprintKey pepper newKey,
              key_last4 := sliceLast4 newKey,
              rotation_count := r.rotation_count + 1,
              last_rotated_at := some now })
          let st4 := auditClient st3 "KEY_ROTATED" row.id ip now
          (st4, .granted newKey)

/-- Response body of POST /admin/keys. -/
structure CreateResp where
  id : Nat
  label : String
  status : String
  key_last4 : String
  raw_key_once : String
deriving Repr, DecidableEq

/-- Label resolution of POST /admin/keys:
    `(req.body && req.body.label) ? String(req.body.label) : "default"` —
    an absent or empty (falsy) label becomes "default". -/
def labelOf (bodyLabel : Option String) : String :=
  match bodyLabel with
  | some s => if s = "" then "default" else s
  | none => "default"

/-- `router.post("/keys")` (admin.js lines 38-55).  `requireAuth` has already
    verified the session; `actor` is the verified username.  The label is
    `(req.body && req.body.label) ? String(req.body.label) : "default"`, so an
    absent or empty label falls back to "default".  `rawKey`/`salt` stand for
    the entropy drawn by `generateRawKey()` and `bcrypt.hashSync`. -/
def createKey (pepper : String) (st : Store) (actor : String)
    (bodyLabel : Option String) (rawKey : String) (salt : Nat)
    (now ip : String) : Store × CreateResp :=
  let label := labelOf bodyLabel
  let fp := fingerprintKey pepper rawKey
  let hash := bcryptHashSync rawKey salt
  let last4 := sliceLast4 rawKey
  let id := st.nextKeyId
  let st1 : Store :=
    { st with
      api_keys := st.api_keys ++
        [⟨id, label, "ACTIVE", hash, fp, last4, 0, now, none, none, none, none⟩],
      nextKeyId := st.nextKeyId + 1 }
  let st2 := insertAudit st1 actor "CREATE_KEY" (some "api_key") (some id) ip
    [("label", label)] now
  (st2, ⟨id, label, "ACTIVE", last4, rawKey⟩)

/-- The metadata row returned by GET /admin/keys: exactly the columns of the
    SELECT in admin.js lines 58-61.  By construction it has no `key_hash` and
    no `key_fingerprint` field, and no raw secret is stored anywhere. -/
structure KeyMeta where
  id : Nat
  label : String
  status : String
  key_last4 : String
  rotation_count : Nat
  created_at : String
  last_used_at : Option String
  last_rotated_at : Option String
  revoked_at : Option String
  revocation_reason : Option String
deriving Repr, DecidableEq

def toMeta (k : ApiKey) : KeyMeta :=
  ⟨k.id, k.label, k.status, k.key_last4, k.rotation_count, k.created_at,
   k.last_used_at, k.last_rotated_at, k.revoked_at, k.revocation_reason⟩

/-- Row order `ORDER BY id DESC`: descending on the AUTOINCREMENT id. -/
def byIdDesc (a b : ApiKey) : Prop := b.id ≤ a.id

instance : DecidableRel byIdDesc := fun a b => Nat.decLe b.id a.id

instance : IsTotal ApiKey byIdDesc := ⟨fun a b => Nat.le_total b.id a.id⟩

instance : IsTrans ApiKey byIdDesc := ⟨fun _ _ _ h1 h2 => le_trans h2 h1⟩

/-- `router.get("/keys")` (admin.js lines 57-63): SELECT of the metadata
    columns only, ORDER BY id DESC. -/
def listKeys (st : Store) : List KeyMeta :=
  (List.insertionSort byIdDesc st.api_keys).map toMeta

/-- Response of DELETE /admin/keys/:id — 404 `Key not found` or 200
    `ok: true`. -/
inductive RevokeResp where
  | notFound
  | ok
deriving Repr, DecidableEq

/-- `router.delete("/keys/:id")` (admin.js lines 65-77): SELECT id by id,
    404 when absent; otherwise an unconditional UPDATE to REVOKED with fresh
    `revoked_at` and reason MANUAL_REVOKE, then the REVOKE_KEY audit entry. -/
def revokeKey (st : Store) (actor : String) (id : Nat) (now ip : String) :
    Store × RevokeResp :=
  match st.api_keys.find? (fun r => r.id == id) with
  | none => (st, .notFound)
  | some _ =>
    let st1 := updateRow st id (fun r =>
      { r with
        status := "REVOKED",
        revoked_at := some now,
        revocation_reason := some "MANUAL_REVOKE" })
    let st2 := insertAudit st1 actor "REVOKE_KEY" (some "api_key") (some id) ip [] now
    (st2, .ok)

/-- Outcome of a handler whose audit INSERT may throw: better-sqlite3 `run`
    throws on a failed write, no route has a try/catch around `audit(...)`,
    and Express turns the uncaught throw into a 500 error response.  The
    statements that already ran are not rolled back (no transaction). -/
inductive FResp (α : Type) where
  | ok (a : α)
  | serverError
deriving Repr, DecidableEq

/-- `router.post("/keys")` with the CREATE_KEY audit INSERT allowed to fail
    (`auditWriteOk = false`): the key INSERT has already committed, the
    response becomes a 500. -/
def createKeyF (pepper : String) (st : Store) (actor : String)
    (bodyLabel : Option String) (rawKey : String) (salt : Nat)
    (now ip : String) (auditWriteOk : Bool) : Store × FResp CreateResp :=
  let label := labelOf bodyLabel
  let fp := fingerprintKey pepper rawKey
  let hash := bcryptHashSync rawKey salt
  let last4 := sliceLast4 rawKey
  let id := st.nextKeyId
  let st1 : Store :=
    { st with
      api_keys := st.api_keys ++
        [⟨id, label, "ACTIVE", hash, fp, last4, 0, now, none, none, none, none⟩],
      nextKeyId := st.nextKeyId + 1 }
  if auditWriteOk = false then (st1, .serverError)
  else
    let st2 := insertAudit st1 actor "CREATE_KEY" (some "api_key") (some id) ip
      [("label", label)] now
    (st2, .ok ⟨id, label, "ACTIVE", last4, rawKey⟩)

/-- `router.delete("/keys/:id")` with the REVOKE_KEY audit INSERT allowed to
    fail: the UPDATE to REVOKED has already committed, the response becomes
    a 500. -/
def revokeKeyF (st : Store) (actor : String) (id : Nat) (now ip : String)
    (auditWriteOk : Bool) : Store × FResp RevokeResp :=
  match st.api_keys.find? (fun r => r.id == id) with
  | none => (st, .ok .notFound)
  | some _ =>
    let st1 := updateRow st id (fun r =>
      { r with
        status := "REVOKED",
        revoked_at := some now,
        revocation_reason := some "MANUAL_REVOKE" })
    if auditWriteOk = false then (st1, .serverError)
    else
      (insertAudit st1 actor "REVOKE_KEY" (some "api_key") (some id) ip [] now, .ok .ok)

/-- `router.post("/access")` with the two audit INSERTs allowed to fail.  A
    failed KEY_USED write aborts the handler before the rotation runs; a
    failed KEY_ROTATED write aborts after the rotation, so the client never
    learns the new key. -/
def accessAndRotateF (pepper : String) (st : Store) (headerKey : Option String)
    (newKey : String) (newSalt : Nat) (now ip : String)
    (usedAuditOk rotatedAuditOk : Bool) : Store × FResp AccessResp :=
  match headerKey with
  | none => (st, .ok .missingKey)
  | some rawKey =>
    if rawKey = "" then (st, .ok .missingKey)
    else
      match st.api_keys.find? (fun r => r.key_fingerprint == fingerprintKey pepper rawKey) with
      | none => (st, .ok .invalidKey)
      | some row =>
        if row.status ≠ "ACTIVE" then (st, .ok (.keyNotActive row.status))
        else if bcryptCompareSync rawKey row.key_hash = false then (st, .ok .invalidKey)
        else
          let st1 := updateRow st row.id (fun r => { r with last_used_at := some now })
          if usedAuditOk = false then (st1, .serverError)
          else
            let st2 := auditClient st1 "KEY_USED" row.id ip now
            let st3 := updateRow st2 row.id (fun r =>
              { r with
                key_hash := bcryptHashSync newKey newSalt,
                key_fingerprint := fingerprintKey pepper newKey,
                key_last4 := sliceLast4 newKey,
                rotation_count := r.rotation_count + 1,
                last_rotated_at := some now })
            if rotatedAuditOk = false then (st3, .serverError)
            else (auditClient st3 "KEY_ROTATED" row.id ip now, .ok (.granted newKey))

/-! Helper lemmas -/

theorem fingerprintKey_inj {pepper a b : String}
    (h : fingerprintKey pepper a = fingerprintKey pepper b) : a = b := by
  have hd := congrArg String.data h
  rw [fingerprintKey, fingerprintKey, sha256hex, sha256hex, String.data_append,
    String.data_append, String.data_append, String.data_append] at hd
  exact String.ext
    (List.append_cancel_right (List.append_cancel_left hd))

theorem find?_eq_some_of_unique {α : Type} {q : α → Bool} {l : List α} {a : α}
    (ha : a ∈ l) (hq : q a = true) (hu : ∀ x ∈ l, q x = true → x = a) :
    l.find? q = some a := by
  induction l with
  | nil => cases ha
  | cons x xs ih =>
    by_cases hx : q x = true
    · have hxa : x = a := hu x (List.mem_cons_self x xs) hx
      subst hxa
      simp [List.find?_cons_of_pos _ hx]
    · have hxa : x ≠ a := fun e => hx (e ▸ hq)
      rcases List.mem_cons.mp ha with h | h
      · exact absurd h.symm hxa
      · rw [List.find?_cons_of_neg _ hx]
        exact ih h (fun y hy hqy => hu y (List.mem_cons_of_mem _ hy) hqy)

/-- Success branch of POST /access, with the matched row made explicit. -/
theorem accessAndRotate_success
    (pepper : String) (st : Store) {rawKey : String} (newKey : String)
    (newSalt : Nat) (now ip : String) {row : ApiKey}
    (hraw : rawKey ≠ "")
    (hfind : st.api_keys.find?
      (fun r => r.key_fingerprint == fingerprintKey pepper rawKey) = some row)
    (hact : row.status = "ACTIVE")
    (hcmp : bcryptCompareSync rawKey row.key_hash = true) :
    accessAndRotate pepper st (some rawKey) newKey newSalt now ip =
      (auditClient
        (updateRow
          (auditClient
            (updateRow st row.id fun r => { r with last_used_at := some now })
            "KEY_USED" row.id ip now)
          row.id fun r =>
            { r with
              key_hash := bcryptHashSync newKey newSalt,
              key_fingerprint := fingerprintKey pepper newKey,
              key_last4 := sliceLast4 newKey,
              rotation_count := r.rotation_count + 1,
              last_rotated_at := some now })
        "KEY_ROTATED" row.id ip now,
       .granted newKey) := by
  simp only [accessAndRotate]
  rw [if_neg hraw, hfind]
  simp [hact, hcmp]

/-- Failure branch of POST /access when no stored fingerprint matches. -/
theorem accessAndRotate_invalid_of_no_match
    (pepper : String) (st : Store) {rawKey : String} (newKey : String)
    (newSalt : Nat) (now ip : String)
    (hraw : rawKey ≠ "")
    (hno : ∀ k ∈ st.api_keys, k.key_fingerprint ≠ fingerprintKey pepper rawKey) :
    accessAndRotate pepper st (some rawKey) newKey newSalt now ip
      = (st, .invalidKey) := by
  have hfind : st.api_keys.find?
      (fun r => r.key_fingerprint == fingerprintKey pepper rawKey) = none := by
    rw [List.find?_eq_none]
    intro x hx
    simp [hno x hx]
  simp only [accessAndRotate]
  rw [if_neg hraw, hfind]

/-- After a successful access, the store's rows are the old rows with the
    matched id rewritten to the rotated row. -/
theorem accessAndRotate_success_api_keys
    (pepper : String) (st : Store) {rawKey : String} (newKey : String)
    (newSalt : Nat) (now ip : String) {row : ApiKey}
    (hraw : rawKey ≠ "")
    (hfind : st.api_keys.find?
      (fun r => r.key_fingerprint == fingerprintKey pepper rawKey) = some row)
    (hact : row.status = "ACTIVE")
    (hcmp : bcryptCompareSync rawKey row.key_hash = true) :
    (accessAndRotate pepper st (some rawKey) newKey newSalt now ip).1.api_keys
      = st.api_keys.map (fun r =>
          if r.id = row.id then
            { r with
              last_used_at := some now,
              key_hash := bcryptHashSync newKey newSalt,
              key_fingerprint := fingerprintKey pepper newKey,
              key_last4 := sliceLast4 newKey,
              rotation_count := r.rotation_count + 1,
              last_rotated_at := some now }
          else r) := by
  rw [accessAndRotate_success pepper st newKey newSalt now ip hraw hfind hact hcmp]
  show ((updateRow _ row.id _).api_keys.map _) = _
  rw [updateRow]
  show (st.api_keys.map _).map _ = _
  rw [List.map_map]
  apply List.map_congr_left
  intro r _
  by_cases h : r.id = row.id <;> simp [Function.comp, h]

theorem revokeKey_not_found {st : Store} {actor : String} {id : Nat}
    {now ip : String}
    (h : st.api_keys.find? (fun r => r.id == id) = none) :
    revokeKey st actor id now ip = (st, .notFound) := by
  simp only [revokeKey]
  rw [h]

theorem revokeKey_found {st : Store} {actor : String} {id : Nat}
    {now ip : String} {row : ApiKey}
    (h : st.api_keys.find? (fun r => r.id == id) = some row) :
    revokeKey st actor id now ip =
      ({ st with
         api_keys := st.api_keys.map (fun r =>
           if r.id = id then
             { r with
               status := "REVOKED",
               revoked_at := some now,
               revocation_reason := some "MANUAL_REVOKE" }
           else r),
         audit_logs := st.audit_logs ++
           [⟨st.nextAuditId, actor, "REVOKE_KEY", some "api_key", some id,
             ip, [], now⟩],
         nextAuditId := st.nextAuditId + 1 }, .ok) := by
  simp only [revokeKey]
  rw [h]
  rfl

theorem createKey_api_keys (pepper : String) (st : Store) (actor : String)
    (bodyLabel : Option String) (rawKey : String) (salt : Nat)
    (now ip : String) :
    (createKey pepper st actor bodyLabel rawKey salt now ip).1.api_keys
      = st.api_keys ++
        [⟨st.nextKeyId, labelOf bodyLabel,
          "ACTIVE", bcryptHashSync rawKey salt, fingerprintKey pepper rawKey,
          sliceLast4 rawKey, 0, now, none, none, none, none⟩] := by
  simp [createKey, insertAudit]

/-- Every run of POST /access either leaves the store untouched and does not
    grant access, or runs the full successful authenticate-update-audit-
    rotate-audit sequence on the first fingerprint-matching row. -/
theorem accessAndRotate_dichotomy (pepper : String) (st : Store)
    (headerKey : Option String) (newKey : String) (newSalt : Nat)
    (now ip : String) :
    ((accessAndRotate pepper st headerKey newKey newSalt now ip).1 = st ∧
     ∀ nk, (accessAndRotate pepper st headerKey newKey newSalt now ip).2
       ≠ .granted nk) ∨
    (∃ rawKey row, headerKey = some rawKey ∧ rawKey ≠ "" ∧
      st.api_keys.find?
        (fun r => r.key_fingerprint == fingerprintKey pepper rawKey) = some row ∧
      row.status = "ACTIVE" ∧
      bcryptCompareSync rawKey row.key_hash = true ∧
      (accessAndRotate pepper st headerKey newKey newSalt now ip).2
        = .granted newKey ∧
      (accessAndRotate pepper st headerKey newKey newSalt now ip).1.api_keys
        = st.api_keys.map (fun r =>
            if r.id = row.id then
              { r with
                last_used_at := some now,
                key_hash := bcryptHashSync newKey newSalt,
                key_fingerprint := fingerprintKey pepper newKey,
                key_last4 := sliceLast4 newKey,
                rotation_count := r.rotation_count + 1,
                last_rotated_at := some now }
            else r) ∧
      (accessAndRotate pepper st headerKey newKey newSalt now ip).1.audit_logs
        = st.audit_logs ++
          [⟨st.nextAuditId, "client", "KEY_USED", some "api_key",
            some row.id, ip, [], now⟩,
           ⟨st.nextAuditId + 1, "client", "KEY_ROTATED", some "api_key",
            some row.id, ip, [], now⟩]) := by
  cases headerKey with
  | none => exact Or.inl ⟨rfl, fun nk h => by simp [accessAndRotate] at h⟩
  | some rawKey =>
    by_cases hraw : rawKey = ""
    · subst hraw
      exact Or.inl ⟨by simp [accessAndRotate],
        fun nk h => by simp [accessAndRotate] at h⟩
    · cases hfind : st.api_keys.find?
        (fun r => r.key_fingerprint == fingerprintKey pepper rawKey) with
      | none =>
        left
        constructor
        · simp only [accessAndRotate]
          rw [if_neg hraw, hfind]
        · intro nk
          simp only [accessAndRotate]
          rw [if_neg hraw, hfind]
          simp
      | some row =>
        by_cases hact : row.status = "ACTIVE"
        · by_cases hcmp : bcryptCompareSync rawKey row.key_hash = true
          · right
            refine ⟨rawKey, row, rfl, hraw, hfind, hact, hcmp, ?_, ?_, ?_⟩
            · rw [accessAndRotate_success pepper st newKey newSalt now ip
                hraw hfind hact hcmp]
            · exact accessAndRotate_success_api_keys pepper st newKey newSalt
                now ip hraw hfind hact hcmp
            · rw [accessAndRotate_success pepper st newKey newSalt now ip
                hraw hfind hact hcmp]
              simp [auditClient, insertAudit, updateRow]
          · have hc : bcryptCompareSync rawKey row.key_hash = false := by
              cases hb : bcryptCompareSync rawKey row.key_hash
              · rfl
              · exact absurd hb hcmp
            left
            constructor
            · simp only [accessAndRotate]
              rw [if_neg hraw, hfind]
              simp [hact, hc]
            · intro nk
              simp only [accessAndRotate]
              rw [if_neg hraw, hfind]
              simp [hact, hc]
        · left
          constructor
          · simp only [accessAndRotate]
            rw [if_neg hraw, hfind]
            simp [hact]
          · intro nk
            simp only [accessAndRotate]
            rw [if_neg hraw, hfind]
            simp [hact]

/-- After a successful access, no stored row carries the presented (now
    rotated-away) fingerprint any more, provided it was carried only by the
    matched row before the call. -/
theorem accessAndRotate_success_no_old_fp
    (pepper : String) (st : Store) {rawKey : String} (newKey : String)
    (newSalt : Nat) (now ip : String) {row : ApiKey}
    (hraw : rawKey ≠ "")
    (hfind : st.api_keys.find?
      (fun r => r.key_fingerprint == fingerprintKey pepper rawKey) = some row)
    (hact : row.status = "ACTIVE")
    (hcmp : bcryptCompareSync rawKey row.key_hash = true)
    (hne : newKey ≠ rawKey)
    (huniq : ∀ k ∈ st.api_keys,
      k.key_fingerprint = fingerprintKey pepper rawKey → k.id = row.id) :
    ∀ k' ∈ (accessAndRotate pepper st (some rawKey) newKey newSalt now ip).1.api_keys,
      k'.key_fingerprint ≠ fingerprintKey pepper rawKey := by
  intro k' hk'
  rw [accessAndRotate_success_api_keys pepper st newKey newSalt now ip
    hraw hfind hact hcmp] at hk'
  rcases List.mem_map.mp hk' with ⟨r, hr, rfl⟩
  by_cases h : r.id = row.id
  · simp only [h, if_pos rfl]
    exact fun he => hne (fingerprintKey_inj he)
  · simp only [if_neg h]
    exact fun he => h (huniq r hr he)

/-- After a successful access, looking up the new fingerprint finds exactly
    the rotated row (given unique row ids and a fresh new fingerprint). -/
theorem accessAndRotate_success_find_rotated
    (pepper : String) (st : Store) {rawKey : String} (newKey : String)
    (newSalt : Nat) (now ip : String) {row : ApiKey}
    (hraw : rawKey ≠ "")
    (hfind : st.api_keys.find?
      (fun r => r.key_fingerprint == fingerprintKey pepper rawKey) = some row)
    (hact : row.status = "ACTIVE")
    (hcmp : bcryptCompareSync rawKey row.key_hash = true)
    (hids : (st.api_keys.map (fun r => r.id)).Nodup)
    (hfresh : ∀ k ∈ st.api_keys,
      k.key_fingerprint ≠ fingerprintKey pepper newKey) :
    (accessAndRotate pepper st (some rawKey) newKey newSalt now ip).1.api_keys.find?
      (fun r => r.key_fingerprint == fingerprintKey pepper newKey)
      = some { row with
          last_used_at := some now,
          key_hash := bcryptHashSync newKey newSalt,
          key_fingerprint := fingerprintKey pepper newKey,
          key_last4 := sliceLast4 newKey,
          rotation_count := row.rotation_count + 1,
          last_rotated_at := some now } := by
  have hrowmem : row ∈ st.api_keys := List.mem_of_find?_eq_some hfind
  rw [accessAndRotate_success_api_keys pepper st newKey newSalt now ip
    hraw hfind hact hcmp]
  apply find?_eq_some_of_unique
  · refine List.mem_map.mpr ⟨row, hrowmem, ?_⟩
    rw [if_pos rfl]
  · simp
  · intro x hx hqx
    rcases List.mem_map.mp hx with ⟨r, hr, rfl⟩
    by_cases h : r.id = row.id
    · have : r = row := List.inj_on_of_nodup_map hids hr hrowmem h
      subst this
      rw [if_pos rfl]
    · rw [if_neg h] at hqx ⊢
      rw [beq_iff_eq] at hqx
      exact absurd hqx (hfresh r hr)

/-! Claim theorems -/

/-- C2: machine-access error discrimination.  An absent or empty x-api-key
    header yields MissingKey (400); a presented key with no fingerprint match
    yields InvalidKey (401); a fingerprint match with status other than
    ACTIVE yields KeyNotActive (403); a fingerprint match with ACTIVE status
    whose bcrypt comparison fails yields the same generic InvalidKey (401);
    and the handler is total: the response is always one of these four
    documented outcomes, never a database error. -/
theorem c2_access_error_discrimination (pepper : String) (st : Store)
    (headerKey : Option String) (newKey : String) (newSalt : Nat)
    (now ip : String) :
    (headerKey = none ∨ headerKey = some "" →
      accessAndRotate pepper st headerKey newKey newSalt now ip
        = (st, .missingKey)) ∧
    (∀ rawKey, headerKey = some rawKey → rawKey ≠ "" →
      st.api_keys.find?
        (fun r => r.key_fingerprint == fingerprintKey pepper rawKey) = none →
      accessAndRotate pepper st headerKey newKey newSalt now ip
        = (st, .invalidKey)) ∧
    (∀ rawKey row, headerKey = some rawKey → rawKey ≠ "" →
      st.api_keys.find?
        (fun r => r.key_fingerprint == fingerprintKey pepper rawKey) = some row →
      row.status ≠ "ACTIVE" →
      accessAndRotate pepper st headerKey newKey newSalt now ip
        = (st, .keyNotActive row.status)) ∧
    (∀ rawKey row, headerKey = some rawKey → rawKey ≠ "" →
      st.api_keys.find?
        (fun r => r.key_fingerprint == fingerprintKey pepper rawKey) = some row →
      row.status = "ACTIVE" →
      bcryptCompareSync rawKey row.key_hash = false →
      accessAndRotate pepper st headerKey newKey newSalt now ip
        = (st, .invalidKey)) ∧
    (AccessResp.missingKey.httpStatus = 400 ∧
     AccessResp.invalidKey.httpStatus = 401 ∧
     (∀ s, (AccessResp.keyNotActive s).httpStatus = 403)) ∧
    ((accessAndRotate pepper st headerKey newKey newSalt now ip).2
        = .missingKey ∨
     (accessAndRotate pepper st headerKey newKey newSalt now ip).2
        = .invalidKey ∨
     (∃ s, (accessAndRotate pepper st headerKey newKey newSalt now ip).2
        = .keyNotActive s) ∨
     (∃ k, (accessAndRotate pepper st headerKey newKey newSalt now ip).2
        = .granted k)) := by
  refine ⟨?_, ?_, ?_, ?_, ⟨rfl, rfl, fun s => rfl⟩, ?_⟩
  · rintro (rfl | rfl)
    · rfl
    · simp [accessAndRotate]
  · rintro rawKey rfl hraw hfind
    simp only [accessAndRotate]
    rw [if_neg hraw, hfind]
  · rintro rawKey row rfl hraw hfind hstat
    simp only [accessAndRotate]
    rw [if_neg hraw, hfind]
    simp [hstat]
  · rintro rawKey row rfl hraw hfind hstat hcmp
    simp only [accessAndRotate]
    rw [if_neg hraw, hfind]
    simp [hstat, hcmp]
  · cases hres : (accessAndRotate pepper st headerKey newKey newSalt now ip).2 with
    | missingKey => exact Or.inl rfl
    | invalidKey => exact Or.inr (Or.inl rfl)
    | keyNotActive s => exact Or.inr (Or.inr (Or.inl ⟨s, rfl⟩))
    | granted k => exact Or.inr (Or.inr (Or.inr ⟨k, rfl⟩))

/-- C2 witness: on a concrete store, an absent header yields MissingKey. -/
theorem c2_access_error_discrimination_witness :
    accessAndRotate "p" ⟨[], [], 1, 1⟩ none "nk" 0 "t" ""
      = (⟨[], [], 1, 1⟩, .missingKey) :=
  (c2_access_error_discrimination "p" ⟨[], [], 1, 1⟩ none "nk" 0 "t" "").1
    (Or.inl rfl)

/-- C6: listKeys confidentiality and order.  Every returned record is the
    metadata projection `toMeta` of a stored row — a projection that is
    invariant under arbitrary changes of `key_hash` and `key_fingerprint`
    (and whose result type has no such fields at all, nor any raw secret) —
    and the returned records are ordered newest-first by id. -/
theorem c6_listKeys_metadata_only_and_order (st : Store) :
    (∀ (k : ApiKey) (h : BcryptHash) (fp : String),
      toMeta { k with key_hash := h, key_fingerprint := fp } = toMeta k) ∧
    (∀ m ∈ listKeys st, ∃ k ∈ st.api_keys, m = toMeta k) ∧
    List.Pairwise (fun a b : KeyMeta => b.id ≤ a.id) (listKeys st) := by
  refine ⟨fun k h fp => rfl, ?_, ?_⟩
  · intro m hm
    rw [listKeys, List.mem_map] at hm
    obtain ⟨k, hk, rfl⟩ := hm
    exact ⟨k, (List.perm_insertionSort byIdDesc st.api_keys).subset hk, rfl⟩
  · rw [listKeys]
    refine List.pairwise_map.mpr ?_
    exact List.Pairwise.imp (fun h => h)
      (List.sorted_insertionSort byIdDesc st.api_keys)

/-- C6 witness: on a one-key store the single listed record is the metadata
    projection of the stored row. -/
theorem c6_listKeys_metadata_only_and_order_witness :
    ∃ k ∈ (⟨[⟨1, "demo", "ACTIVE", ⟨0, "raw1"⟩, "fp1", "raw1", 0, "t0",
        none, none, none, none⟩], [], 2, 1⟩ : Store).api_keys,
      toMeta ⟨1, "demo", "ACTIVE", ⟨0, "raw1"⟩, "fp1", "raw1", 0, "t0",
        none, none, none, none⟩ = toMeta k :=
  (c6_listKeys_metadata_only_and_order
    ⟨[⟨1, "demo", "ACTIVE", ⟨0, "raw1"⟩, "fp1", "raw1", 0, "t0",
       none, none, none, none⟩], [], 2, 1⟩).2.1
    (toMeta ⟨1, "demo", "ACTIVE", ⟨0, "raw1"⟩, "fp1", "raw1", 0, "t0",
       none, none, none, none⟩) (by decide)

/-- C3: rotation_count monotonicity.  createKey appends a row with
    rotation_count 0 and leaves existing rows untouched; revokeKey preserves
    every row's rotation_count; accessAndRotate never decreases any row's
    rotation_count and, on success, increments the authenticated (matched)
    row's count by exactly one while leaving every other row's count
    unchanged.  listKeys is a pure read and takes no store forward. -/
theorem c3_rotation_count_monotone (pepper : String) (st : Store)
    (actor : String) (bodyLabel : Option String) (rawKey newKey : String)
    (salt newSalt : Nat) (now ip : String) (headerKey : Option String)
    (kid : Nat) :
    (∃ newRow : ApiKey,
      (createKey pepper st actor bodyLabel rawKey salt now ip).1.api_keys
        = st.api_keys ++ [newRow] ∧ newRow.rotation_count = 0) ∧
    (∀ (i : Nat) (k k' : ApiKey), st.api_keys[i]? = some k →
      (revokeKey st actor kid now ip).1.api_keys[i]? = some k' →
      k'.rotation_count = k.rotation_count) ∧
    (∀ (i : Nat) (k k' : ApiKey), st.api_keys[i]? = some k →
      (accessAndRotate pepper st headerKey newKey newSalt now ip).1.api_keys[i]?
        = some k' →
      k.rotation_count ≤ k'.rotation_count) ∧
    (∀ nk, (accessAndRotate pepper st headerKey newKey newSalt now ip).2
        = .granted nk →
      ∃ rawKey0 row, headerKey = some rawKey0 ∧
        st.api_keys.find?
          (fun r => r.key_fingerprint == fingerprintKey pepper rawKey0)
          = some row ∧
        ∀ (i : Nat) (k k' : ApiKey), st.api_keys[i]? = some k →
          (accessAndRotate pepper st headerKey newKey newSalt now ip).1.api_keys[i]?
            = some k' →
          k'.rotation_count
            = k.rotation_count + (if k.id = row.id then 1 else 0)) := by
  refine ⟨⟨_, createKey_api_keys pepper st actor bodyLabel rawKey salt now ip,
    rfl⟩, ?_, ?_, ?_⟩
  · intro i k k' hk hk'
    cases hfind : st.api_keys.find? (fun r => r.id == kid) with
    | none =>
      rw [revokeKey_not_found hfind, hk] at hk'
      cases hk'
      rfl
    | some row =>
      rw [revokeKey_found hfind] at hk'
      simp only [List.getElem?_map, hk, Option.map_some] at hk'
      cases hk'
      by_cases h : k.id = kid <;> simp [h]
  · intro i k k' hk hk'
    rcases accessAndRotate_dichotomy pepper st headerKey newKey newSalt now ip
      with ⟨hst, _⟩ | ⟨rk, row, _, _, _, _, _, _, hkeys, _⟩
    · rw [hst, hk] at hk'
      cases hk'
      exact le_refl _
    · rw [hkeys] at hk'
      simp only [List.getElem?_map, hk, Option.map_some] at hk'
      cases hk'
      by_cases h : k.id = row.id <;> simp [h]
  · intro nk hg
    rcases accessAndRotate_dichotomy pepper st headerKey newKey newSalt now ip
      with ⟨_, hng⟩ | ⟨rk, row, hh, _, hfind, _, _, _, hkeys, _⟩
    · exact absurd hg (hng nk)
    · refine ⟨rk, row, hh, hfind, ?_⟩
      intro i k k' hk hk'
      rw [hkeys] at hk'
      simp only [List.getElem?_map, hk, Option.map_some] at hk'
      cases hk'
      by_cases h : k.id = row.id <;> simp [h]

/-- C3 witness: a successful access on a one-key store increments that key's
    rotation_count from 0 to 1. -/
theorem c3_rotation_count_monotone_witness :
    ∃ rawKey0 row,
      (some "raw1" : Option String) = some rawKey0 ∧
      (⟨[⟨1, "demo", "ACTIVE", ⟨0, "raw1"⟩, fingerprintKey "p" "raw1", "raw1",
          0, "t0", none, none, none, none⟩], [], 2, 1⟩ : Store).api_keys.find?
        (fun r => r.key_fingerprint == fingerprintKey "p" rawKey0) = some row ∧
      ∀ (i : Nat) (k k' : ApiKey),
        (⟨[⟨1, "demo", "ACTIVE", ⟨0, "raw1"⟩, fingerprintKey "p" "raw1", "raw1",
            0, "t0", none, none, none, none⟩], [], 2, 1⟩ : Store).api_keys[i]?
          = some k →
        (accessAndRotate "p"
          ⟨[⟨1, "demo", "ACTIVE", ⟨0, "raw1"⟩, fingerprintKey "p" "raw1", "raw1",
             0, "t0", none, none, none, none⟩], [], 2, 1⟩
          (some "raw1") "new1" 1 "t1" "ip").1.api_keys[i]? = some k' →
        k'.rotation_count = k.rotation_count + (if k.id = row.id then 1 else 0) :=
  (c3_rotation_count_monotone "p"
    ⟨[⟨1, "demo", "ACTIVE", ⟨0, "raw1"⟩, fingerprintKey "p" "raw1", "raw1",
       0, "t0", none, none, none, none⟩], [], 2, 1⟩
    "admin" none "raw1" "new1" 0 1 "t1" "ip" (some "raw1") 1).2.2.2
    "new1" (by decide)

/-- C4: status state machine.  createKey appends an ACTIVE row; revokeKey
    either leaves a row's status unchanged or moves it ACTIVE → REVOKED
    (assuming the well-formedness invariant that every stored status is
    ACTIVE or REVOKED), and a REVOKED row stays REVOKED; accessAndRotate
    (rotation) never changes any row's status.  In particular no operation
    ever sets a REVOKED key back to ACTIVE. -/
theorem c4_status_state_machine (pepper : String) (st : Store)
    (actor : String) (bodyLabel : Option String) (rawKey newKey : String)
    (salt newSalt : Nat) (now ip : String) (headerKey : Option String)
    (kid : Nat)
    (hwf : ∀ k ∈ st.api_keys, k.status = "ACTIVE" ∨ k.status = "REVOKED") :
    (∃ newRow : ApiKey,
      (createKey pepper st actor bodyLabel rawKey salt now ip).1.api_keys
        = st.api_keys ++ [newRow] ∧ newRow.status = "ACTIVE") ∧
    (∀ (i : Nat) (k k' : ApiKey), st.api_keys[i]? = some k →
      (revokeKey st actor kid now ip).1.api_keys[i]? = some k' →
      (k'.status = k.status ∨ (k.status = "ACTIVE" ∧ k'.status = "REVOKED")) ∧
      (k.status = "REVOKED" → k'.status = "REVOKED")) ∧
    (∀ (i : Nat) (k k' : ApiKey), st.api_keys[i]? = some k →
      (accessAndRotate pepper st headerKey newKey newSalt now ip).1.api_keys[i]?
        = some k' →
      k'.status = k.status) := by
  refine ⟨⟨_, createKey_api_keys pepper st actor bodyLabel rawKey salt now ip,
    rfl⟩, ?_, ?_⟩
  · intro i k k' hk hk'
    cases hfind : st.api_keys.find? (fun r => r.id == kid) with
    | none =>
      rw [revokeKey_not_found hfind, hk] at hk'
      cases hk'
      exact ⟨Or.inl rfl, fun h => h⟩
    | some row =>
      rw [revokeKey_found hfind] at hk'
      simp only [List.getElem?_map, hk, Option.map_some] at hk'
      cases hk'
      by_cases h : k.id = kid
      · rcases hwf k (List.getElem?_mem hk) with ha | hr
        · exact ⟨Or.inr ⟨ha, by simp [h]⟩,
            fun hrv => absurd (ha.symm.trans hrv) (by decide)⟩
        · exact ⟨Or.inl (by simp [h, hr]), fun _ => by simp [h]⟩
      · exact ⟨Or.inl (by simp [h]), fun hrv => by simp [h, hrv]⟩
  · intro i k k' hk hk'
    rcases accessAndRotate_dichotomy pepper st headerKey newKey newSalt now ip
      with ⟨hst, _⟩ | ⟨rk, row, _, _, _, _, _, _, hkeys, _⟩
    · rw [hst, hk] at hk'
      cases hk'
      rfl
    · rw [hkeys] at hk'
      simp only [List.getElem?_map, hk, Option.map_some] at hk'
      cases hk'
      by_cases h : k.id = row.id <;> simp [h]

/-- C4 witness: revoking the single ACTIVE key of a one-key store moves its
    status ACTIVE → REVOKED. -/
theorem c4_status_state_machine_witness :
    ((⟨1, "demo", "REVOKED", ⟨0, "raw1"⟩, "fp1", "raw1", 0, "t0", none, none,
        some "t9", some "MANUAL_REVOKE"⟩ : ApiKey).status
      = (⟨1, "demo", "ACTIVE", ⟨0, "raw1"⟩, "fp1", "raw1", 0, "t0",
          none, none, none, none⟩ : ApiKey).status ∨
     ((⟨1, "demo", "ACTIVE", ⟨0, "raw1"⟩, "fp1", "raw1", 0, "t0",
         none, none, none, none⟩ : ApiKey).status = "ACTIVE" ∧
      (⟨1, "demo", "REVOKED", ⟨0, "raw1"⟩, "fp1", "raw1", 0, "t0", none, none,
         some "t9", some "MANUAL_REVOKE"⟩ : ApiKey).status = "REVOKED")) ∧
    ((⟨1, "demo", "ACTIVE", ⟨0, "raw1"⟩, "fp1", "raw1", 0, "t0",
        none, none, none, none⟩ : ApiKey).status = "REVOKED" →
     (⟨1, "demo", "REVOKED", ⟨0, "raw1"⟩, "fp1", "raw1", 0, "t0", none, none,
        some "t9", some "MANUAL_REVOKE"⟩ : ApiKey).status = "REVOKED") :=
  (c4_status_state_machine "p"
    ⟨[⟨1, "demo", "ACTIVE", ⟨0, "raw1"⟩, "fp1", "raw1", 0, "t0",
       none, none, none, none⟩], [], 2, 1⟩
    "admin" none "raw1" "new1" 0 1 "t9" "ip" none 1
    (by decide)).2.1 0
    ⟨1, "demo", "ACTIVE", ⟨0, "raw1"⟩, "fp1", "raw1", 0, "t0",
     none, none, none, none⟩
    ⟨1, "demo", "REVOKED", ⟨0, "raw1"⟩, "fp1", "raw1", 0, "t0", none, none,
     some "t9", some "MANUAL_REVOKE"⟩
    (by decide) (by decide)

/-- C5: audit ordering.  When accessAndRotate succeeds — which requires the
    full authentication (fingerprint match, ACTIVE status, bcrypt
    verification) — the audit log gains exactly two entries for the matched
    key, KEY_USED followed by KEY_ROTATED, and the matched row's
    last_used_at is set and its rotation applied in the same call; when it
    does not grant access, the audit log is unchanged (neither entry is
    written). -/
theorem c5_audit_ordering_on_success (pepper : String) (st : Store)
    (headerKey : Option String) (newKey : String) (newSalt : Nat)
    (now ip : String) :
    (∀ nk, (accessAndRotate pepper st headerKey newKey newSalt now ip).2
        = .granted nk →
      ∃ rawKey row, headerKey = some rawKey ∧
        st.api_keys.find?
          (fun r => r.key_fingerprint == fingerprintKey pepper rawKey)
          = some row ∧
        row.status = "ACTIVE" ∧
        bcryptCompareSync rawKey row.key_hash = true ∧
        (accessAndRotate pepper st headerKey newKey newSalt now ip).1.audit_logs
          = st.audit_logs ++
            [⟨st.nextAuditId, "client", "KEY_USED", some "api_key",
              some row.id, ip, [], now⟩,
             ⟨st.nextAuditId + 1, "client", "KEY_ROTATED", some "api_key",
              some row.id, ip, [], now⟩] ∧
        (∀ (i : Nat) (k k' : ApiKey), st.api_keys[i]? = some k →
          (accessAndRotate pepper st headerKey newKey newSalt now ip).1.api_keys[i]?
            = some k' →
          k.id = row.id →
          k'.last_used_at = some now ∧
          k'.rotation_count = k.rotation_count + 1)) ∧
    ((∀ nk, (accessAndRotate pepper st headerKey newKey newSalt now ip).2
        ≠ .granted nk) →
      (accessAndRotate pepper st headerKey newKey newSalt now ip).1.audit_logs
        = st.audit_logs) := by
  rcases accessAndRotate_dichotomy pepper st headerKey newKey newSalt now ip
    with ⟨hst, hng⟩ | ⟨rk, row, hh, hraw, hfind, hact, hcmp, hresp, hkeys, haud⟩
  · exact ⟨fun nk hg => absurd hg (hng nk), fun _ => by rw [hst]⟩
  · constructor
    · intro nk _
      refine ⟨rk, row, hh, hfind, hact, hcmp, haud, ?_⟩
      intro i k k' hk hk' hid
      rw [hkeys] at hk'
      simp only [List.getElem?_map, hk, Option.map_some] at hk'
      cases hk'
      simp [hid]
    · intro hng
      exact absurd hresp (hng newKey)

/-- C5 witness: a successful access on a one-key store appends exactly the
    KEY_USED and KEY_ROTATED entries, in that order. -/
theorem c5_audit_ordering_on_success_witness :
    ∃ rawKey row, (some "raw1" : Option String) = some rawKey ∧
      (⟨[⟨1, "demo", "ACTIVE", ⟨0, "raw1"⟩, fingerprintKey "p" "raw1", "raw1",
          0, "t0", none, none, none, none⟩], [], 2, 7⟩ : Store).api_keys.find?
        (fun r => r.key_fingerprint == fingerprintKey "p" rawKey) = some row ∧
      row.status = "ACTIVE" ∧
      bcryptCompareSync rawKey row.key_hash = true ∧
      (accessAndRotate "p"
        ⟨[⟨1, "demo", "ACTIVE", ⟨0, "raw1"⟩, fingerprintKey "p" "raw1", "raw1",
           0, "t0", none, none, none, none⟩], [], 2, 7⟩
        (some "raw1") "new1" 1 "t1" "ip").1.audit_logs
        = [] ++
          [⟨7, "client", "KEY_USED", some "api_key", some row.id, "ip", [], "t1"⟩,
           ⟨8, "client", "KEY_ROTATED", some "api_key", some row.id, "ip", [],
            "t1"⟩] ∧
      (∀ (i : Nat) (k k' : ApiKey),
        (⟨[⟨1, "demo", "ACTIVE", ⟨0, "raw1"⟩, fingerprintKey "p" "raw1", "raw1",
            0, "t0", none, none, none, none⟩], [], 2, 7⟩ : Store).api_keys[i]?
          = some k →
        (accessAndRotate "p"
          ⟨[⟨1, "demo", "ACTIVE", ⟨0, "raw1"⟩, fingerprintKey "p" "raw1", "raw1",
             0, "t0", none, none, none, none⟩], [], 2, 7⟩
          (some "raw1") "new1" 1 "t1" "ip").1.api_keys[i]? = some k' →
        k.id = row.id →
        k'.last_used_at = some "t1" ∧ k'.rotation_count = k.rotation_count + 1) :=
  (c5_audit_ordering_on_success "p"
    ⟨[⟨1, "demo", "ACTIVE", ⟨0, "raw1"⟩, fingerprintKey "p" "raw1", "raw1",
       0, "t0", none, none, none, none⟩], [], 2, 7⟩
    (some "raw1") "new1" 1 "t1" "ip").1 "new1" (by decide)

/-- C1: rotate-on-use round trip.  A key created by createKey returns its raw
    value exactly once; presenting that raw value to accessAndRotate succeeds
    and returns a rotated key different from the presented value; presenting
    the SAME original raw value again fails with InvalidKey (the 401). -/
theorem c1_rotate_on_use_round_trip (pepper : String) (st : Store)
    (actor : String) (bodyLabel : Option String)
    (rawKey newKey newKey2 : String) (salt ns1 ns2 : Nat)
    (t0 t1 t2 ip0 ip1 ip2 : String)
    (hraw : rawKey ≠ "")
    (hfresh : ∀ k ∈ st.api_keys,
      k.key_fingerprint ≠ fingerprintKey pepper rawKey)
    (hne : newKey ≠ rawKey) :
    (createKey pepper st actor bodyLabel rawKey salt t0 ip0).2.raw_key_once
      = rawKey ∧
    (accessAndRotate pepper
      (createKey pepper st actor bodyLabel rawKey salt t0 ip0).1
      (some rawKey) newKey ns1 t1 ip1).2 = .granted newKey ∧
    newKey ≠ rawKey ∧
    (accessAndRotate pepper
      (accessAndRotate pepper
        (createKey pepper st actor bodyLabel rawKey salt t0 ip0).1
        (some rawKey) newKey ns1 t1 ip1).1
      (some rawKey) newKey2 ns2 t2 ip2).2 = .invalidKey ∧
    AccessResp.invalidKey.httpStatus = 401 := by
  have hkeys1 := createKey_api_keys pepper st actor bodyLabel rawKey salt t0 ip0
  have hfind1 : (createKey pepper st actor bodyLabel rawKey salt t0 ip0).1.api_keys.find?
      (fun r => r.key_fingerprint == fingerprintKey pepper rawKey)
      = some ⟨st.nextKeyId, labelOf bodyLabel,
          "ACTIVE", bcryptHashSync rawKey salt, fingerprintKey pepper rawKey,
          sliceLast4 rawKey, 0, t0, none, none, none, none⟩ := by
    rw [hkeys1, List.find?_append]
    have h1 : st.api_keys.find?
        (fun r => r.key_fingerprint == fingerprintKey pepper rawKey) = none := by
      rw [List.find?_eq_none]
      intro x hx
      simp [hfresh x hx]
    rw [h1]
    simp
  have hcmp : bcryptCompareSync rawKey (bcryptHashSync rawKey salt) = true := by
    simp [bcryptCompareSync, bcryptHashSync]
  have huniq : ∀ k ∈ (createKey pepper st actor bodyLabel rawKey salt t0 ip0).1.api_keys,
      k.key_fingerprint = fingerprintKey pepper rawKey → k.id = st.nextKeyId := by
    intro k hk hfp
    rw [hkeys1] at hk
    rcases List.mem_append.mp hk with hk | hk
    · exact absurd hfp (hfresh k hk)
    · rw [List.mem_singleton.mp hk]
  refine ⟨rfl, ?_, hne, ?_, rfl⟩
  · rw [accessAndRotate_success pepper _ newKey ns1 t1 ip1 hraw hfind1 rfl hcmp]
  · have hno := accessAndRotate_success_no_old_fp pepper _ newKey ns1 t1 ip1
      hraw hfind1 rfl hcmp hne huniq
    rw [accessAndRotate_invalid_of_no_match pepper _ newKey2 ns2 t2 ip2 hraw hno]

/-- C1 witness: starting from the empty store, the created key grants access
    once and the same raw value is then rejected as InvalidKey. -/
theorem c1_rotate_on_use_round_trip_witness :
    (accessAndRotate "p"
      (accessAndRotate "p"
        (createKey "p" ⟨[], [], 1, 1⟩ "admin" (some "demo") "raw1" 0 "t0" "ip").1
        (some "raw1") "new1" 1 "t1" "ip").1
      (some "raw1") "new2" 2 "t2" "ip").2 = AccessResp.invalidKey :=
  (c1_rotate_on_use_round_trip "p" ⟨[], [], 1, 1⟩ "admin" (some "demo")
    "raw1" "new1" "new2" 0 1 2 "t0" "t1" "t2" "ip" "ip" "ip"
    (by decide) (by decide) (by decide)).2.2.2.1

/-- C9: exclusivity of two same-key accesses.  The handler is fully
    synchronous (better-sqlite3 and bcryptjs sync calls, no await), so two
    concurrent requests execute serially in some order; in every such order
    the first call is granted the rotated key, the second call presenting the
    same raw value fails with InvalidKey and leaves the store untouched, and
    the winner's rotated key remains usable afterwards — no double rotation
    loses the winner's issued key. -/
theorem c9_concurrent_rotation_exclusivity (pepper : String) (st : Store)
    (raw new1 new2 new3 : String) (s1 s2 s3 : Nat)
    (t1 t2 t3 i1 i2 i3 : String) (row : ApiKey)
    (hraw : raw ≠ "")
    (hfind : st.api_keys.find?
      (fun r => r.key_fingerprint == fingerprintKey pepper raw) = some row)
    (hact : row.status = "ACTIVE")
    (hhash : row.key_hash.input = raw)
    (hne1 : new1 ≠ raw)
    (hnew1 : new1 ≠ "")
    (hids : (st.api_keys.map (fun r => r.id)).Nodup)
    (huniq : ∀ k ∈ st.api_keys,
      k.key_fingerprint = fingerprintKey pepper raw → k.id = row.id)
    (hfresh1 : ∀ k ∈ st.api_keys,
      k.key_fingerprint ≠ fingerprintKey pepper new1) :
    (accessAndRotate pepper st (some raw) new1 s1 t1 i1).2 = .granted new1 ∧
    (accessAndRotate pepper
      (accessAndRotate pepper st (some raw) new1 s1 t1 i1).1
      (some raw) new2 s2 t2 i2).2 = .invalidKey ∧
    (accessAndRotate pepper
      (accessAndRotate pepper st (some raw) new1 s1 t1 i1).1
      (some raw) new2 s2 t2 i2).1
      = (accessAndRotate pepper st (some raw) new1 s1 t1 i1).1 ∧
    (accessAndRotate pepper
      (accessAndRotate pepper
        (accessAndRotate pepper st (some raw) new1 s1 t1 i1).1
        (some raw) new2 s2 t2 i2).1
      (some new1) new3 s3 t3 i3).2 = .granted new3 := by
  have hcmp : bcryptCompareSync raw row.key_hash = true := by
    simp [bcryptCompareSync, hhash]
  have hno := accessAndRotate_success_no_old_fp pepper st new1 s1 t1 i1
    hraw hfind hact hcmp hne1 huniq
  have hinv := accessAndRotate_invalid_of_no_match pepper _ new2 s2 t2 i2
    hraw hno
  have hrot := accessAndRotate_success_find_rotated pepper st new1 s1 t1 i1
    hraw hfind hact hcmp hids hfresh1
  have hst2 : (accessAndRotate pepper
      (accessAndRotate pepper st (some raw) new1 s1 t1 i1).1
      (some raw) new2 s2 t2 i2).1
      = (accessAndRotate pepper st (some raw) new1 s1 t1 i1).1 := by
    rw [hinv]
  refine ⟨?_, ?_, hst2, ?_⟩
  · rw [accessAndRotate_success pepper st new1 s1 t1 i1 hraw hfind hact hcmp]
  · rw [hinv]
  · rw [hst2]
    rw [accessAndRotate_success pepper _ new3 s3 t3 i3 hnew1 hrot hact
      (by simp [bcryptCompareSync, bcryptHashSync])]

/-- C9 witness: on a one-key store, of two serialized same-key calls only
    the first succeeds; the second gets InvalidKey. -/
theorem c9_concurrent_rotation_exclusivity_witness :
    (accessAndRotate "p"
      (accessAndRotate "p"
        ⟨[⟨1, "demo", "ACTIVE", ⟨0, "raw1"⟩, fingerprintKey "p" "raw1", "raw1",
           0, "t0", none, none, none, none⟩], [], 2, 1⟩
        (some "raw1") "new1" 1 "t1" "ip").1
      (some "raw1") "new2" 2 "t2" "ip").2 = AccessResp.invalidKey :=
  (c9_concurrent_rotation_exclusivity "p"
    ⟨[⟨1, "demo", "ACTIVE", ⟨0, "raw1"⟩, fingerprintKey "p" "raw1", "raw1",
       0, "t0", none, none, none, none⟩], [], 2, 1⟩
    "raw1" "new1" "new2" "new3" 1 2 3 "t1" "t2" "t3" "ip" "ip" "ip"
    ⟨1, "demo", "ACTIVE", ⟨0, "raw1"⟩, fingerprintKey "p" "raw1", "raw1",
     0, "t0", none, none, none, none⟩
    (by decide) (by decide) (by decide) (by decide) (by decide) (by decide)
    (by decide) (by decide) (by decide)).2.1

/-- C7 counterexample: when the CREATE_KEY audit INSERT fails, the createKey
    handler does not produce its success response — the uncaught throw
    becomes a 500 server error, so the audit failure does block the
    triggering operation's response. -/
theorem c7_counterexample_audit_blocks :
    (createKeyF "p" ⟨[], [], 1, 1⟩ "admin" none "raw1" 0 "t0" "ip" false).2
      = FResp.serverError ∧
    ∀ resp : CreateResp,
      (createKeyF "p" ⟨[], [], 1, 1⟩ "admin" none "raw1" 0 "t0" "ip" false).2
        ≠ FResp.ok resp :=
  ⟨rfl, fun _ h => FResp.noConfusion h⟩

/-- C7 amended: audit writes are unguarded.  The primary state change made
    before the audit INSERT is not rolled back (createKey's insert and
    revokeKey's update persist), but a failed audit write aborts the handler:
    the client receives a 500 error instead of the success response, and the
    steps after the failed audit do not run — in accessAndRotate a failed
    KEY_USED write leaves last_used_at updated but prevents the rotation. -/
theorem c7_audit_failure_unguarded (pepper : String) (st : Store)
    (actor : String) (bodyLabel : Option String) (rawKey : String)
    (salt : Nat) (now ip : String) (kid : Nat) :
    ((createKeyF pepper st actor bodyLabel rawKey salt now ip false).1.api_keys
       = (createKey pepper st actor bodyLabel rawKey salt now ip).1.api_keys ∧
     (createKeyF pepper st actor bodyLabel rawKey salt now ip false).1.audit_logs
       = st.audit_logs ∧
     (createKeyF pepper st actor bodyLabel rawKey salt now ip false).2
       = .serverError ∧
     (createKeyF pepper st actor bodyLabel rawKey salt now ip true).1
       = (createKey pepper st actor bodyLabel rawKey salt now ip).1 ∧
     (createKeyF pepper st actor bodyLabel rawKey salt now ip true).2
       = .ok (createKey pepper st actor bodyLabel rawKey salt now ip).2) ∧
    (∀ row, st.api_keys.find? (fun r => r.id == kid) = some row →
      (revokeKeyF st actor kid now ip false).1.api_keys
        = (revokeKey st actor kid now ip).1.api_keys ∧
      (revokeKeyF st actor kid now ip false).1.audit_logs = st.audit_logs ∧
      (revokeKeyF st actor kid now ip false).2 = .serverError) ∧
    (∀ rawKey0 row, rawKey0 ≠ "" →
      st.api_keys.find?
        (fun r => r.key_fingerprint == fingerprintKey pepper rawKey0)
        = some row →
      row.status = "ACTIVE" →
      bcryptCompareSync rawKey0 row.key_hash = true →
      ∀ (newKey : String) (newSalt : Nat),
        (accessAndRotateF pepper st (some rawKey0) newKey newSalt now ip
          false true).1
          = updateRow st row.id (fun r => { r with last_used_at := some now }) ∧
        (accessAndRotateF pepper st (some rawKey0) newKey newSalt now ip
          false true).1.audit_logs = st.audit_logs ∧
        (∀ (i : Nat) (k k' : ApiKey), st.api_keys[i]? = some k →
          (accessAndRotateF pepper st (some rawKey0) newKey newSalt now ip
            false true).1.api_keys[i]? = some k' →
          k'.rotation_count = k.rotation_count) ∧
        (accessAndRotateF pepper st (some rawKey0) newKey newSalt now ip
          false true).2 = .serverError) := by
  refine ⟨⟨rfl, rfl, rfl, rfl, rfl⟩, ?_, ?_⟩
  · intro row hfind
    simp only [revokeKeyF]
    rw [hfind]
    rw [revokeKey_found hfind]
    exact ⟨rfl, rfl, rfl⟩
  · intro rawKey0 row hraw hfind hact hcmp newKey newSalt
    have hred : accessAndRotateF pepper st (some rawKey0) newKey newSalt now ip
        false true
        = (updateRow st row.id (fun r => { r with last_used_at := some now }),
           .serverError) := by
      simp only [accessAndRotateF]
      rw [if_neg hraw, hfind]
      simp [hact, hcmp]
    rw [hred]
    refine ⟨rfl, rfl, ?_, rfl⟩
    intro i k k' hk hk'
    simp only [updateRow, List.getElem?_map, hk, Option.map_some] at hk'
    cases hk'
    by_cases h : k.id = row.id <;> simp [h]

/-- C7 amended witness: on a one-key store, a failed REVOKE_KEY audit write
    leaves the revocation in place, the audit log unwritten, and turns the
    response into a server error. -/
theorem c7_audit_failure_unguarded_witness :
    (revokeKeyF
        ⟨[⟨1, "demo", "ACTIVE", ⟨0, "raw1"⟩, "fp1", "raw1", 0, "t0",
           none, none, none, none⟩], [], 2, 1⟩
        "admin" 1 "t9" "ip" false).1.api_keys
      = (revokeKey
          ⟨[⟨1, "demo", "ACTIVE", ⟨0, "raw1"⟩, "fp1", "raw1", 0, "t0",
             none, none, none, none⟩], [], 2, 1⟩
          "admin" 1 "t9" "ip").1.api_keys ∧
    (revokeKeyF
        ⟨[⟨1, "demo", "ACTIVE", ⟨0, "raw1"⟩, "fp1", "raw1", 0, "t0",
           none, none, none, none⟩], [], 2, 1⟩
        "admin" 1 "t9" "ip" false).1.audit_logs = [] ∧
    (revokeKeyF
        ⟨[⟨1, "demo", "ACTIVE", ⟨0, "raw1"⟩, "fp1", "raw1", 0, "t0",
           none, none, none, none⟩], [], 2, 1⟩
        "admin" 1 "t9" "ip" false).2 = FResp.serverError :=
  (c7_audit_failure_unguarded "p"
    ⟨[⟨1, "demo", "ACTIVE", ⟨0, "raw1"⟩, "fp1", "raw1", 0, "t0",
       none, none, none, none⟩], [], 2, 1⟩
    "admin" none "raw1" 0 "t9" "ip" 1).2.1
    ⟨1, "demo", "ACTIVE", ⟨0, "raw1"⟩, "fp1", "raw1", 0, "t0",
     none, none, none, none⟩ (by decide)

/-- C8 counterexample: with KEY_PEPPER absent from the environment the code
    does not fail at startup; it silently resolves the pepper to the built-in
    default "pepper-change-me" (admin.js line 10), while the spec-modelled
    behavior demands a startup failure. -/
theorem c8_counterexample_default_pepper :
    resolvePepper none = "pepper-change-me" ∧ resolvePepperSpec none = none :=
  ⟨rfl, rfl⟩

/-- C8 amended: when KEY_PEPPER is absent (or empty — JS falsiness), startup
    proceeds with the built-in default pepper "pepper-change-me", and every
    fingerprint computation path then uses that default. -/
theorem c8_default_pepper_fallback :
    resolvePepper none = "pepper-change-me" ∧
    resolvePepper (some "") = "pepper-change-me" ∧
    (∀ raw : String, fingerprintKey (resolvePepper none) raw
      = sha256hex (raw ++ "pepper-change-me")) :=
  ⟨rfl, rfl, fun _ => rfl⟩

/-- C10: revoking an existing key unconditionally succeeds, whatever its
    current status: the row is set to REVOKED with `revoked_at` overwritten
    by the new timestamp and reason MANUAL_REVOKE, a fresh REVOKE_KEY audit
    entry is appended on every call, and the response is ok; only a
    nonexistent id yields NotFound. -/
theorem c10_revoke_unconditional (st : Store) (actor : String) (id : Nat)
    (now ip : String) :
    (st.api_keys.find? (fun r => r.id == id) = none →
      revokeKey st actor id now ip = (st, .notFound)) ∧
    (∀ row, st.api_keys.find? (fun r => r.id == id) = some row →
      revokeKey st actor id now ip =
        ({ st with
           api_keys := st.api_keys.map (fun r =>
             if r.id = id then
               { r with
                 status := "REVOKED",
                 revoked_at := some now,
                 revocation_reason := some "MANUAL_REVOKE" }
             else r),
           audit_logs := st.audit_logs ++
             [⟨st.nextAuditId, actor, "REVOKE_KEY", some "api_key", some id,
               ip, [], now⟩],
           nextAuditId := st.nextAuditId + 1 }, .ok)) := by
  constructor
  · intro h
    simp only [revokeKey]
    rw [h]
  · intro row h
    simp only [revokeKey]
    rw [h]
    rfl

/-- C10 witness: revoking an already-REVOKED key succeeds again and
    overwrites its revocation metadata. -/
theorem c10_revoke_unconditional_witness :
    revokeKey
      ⟨[⟨1, "demo", "REVOKED", ⟨0, "raw1"⟩, "fp1", "raw1", 0, "t0",
         none, none, some "t1", some "MANUAL_REVOKE"⟩], [], 2, 5⟩
      "admin" 1 "t9" "ip" =
      (⟨[⟨1, "demo", "REVOKED", ⟨0, "raw1"⟩, "fp1", "raw1", 0, "t0",
          none, none, some "t9", some "MANUAL_REVOKE"⟩],
        [⟨5, "admin", "REVOKE_KEY", some "api_key", some 1, "ip", [], "t9"⟩],
        2, 6⟩, .ok) := by
  have h := (c10_revoke_unconditional
    ⟨[⟨1, "demo", "REVOKED", ⟨0, "raw1"⟩, "fp1", "raw1", 0, "t0",
       none, none, some "t1", some "MANUAL_REVOKE"⟩], [], 2, 5⟩
    "admin" 1 "t9" "ip").2
    ⟨1, "demo", "REVOKED", ⟨0, "raw1"⟩, "fp1", "raw1", 0, "t0",
     none, none, some "t1", some "MANUAL_REVOKE"⟩ (by decide)
  rw [h]
  decide

end KeyShield
